import Mathlib

/-!
Verification of the secure static-file-serving core: the request-path
guard `wrappedFileServer` and the directory-filtering store wrapper
`FilteringFS.Open`, shallowly embedded from the Go source.
-/

namespace SecureFS

/-! ## The hidden-path guard (`wrappedFileServer`)

The Go handler works on the request path as a byte string.  All the
characters it compares against (`/`, `.`) are ASCII, so we embed request
paths as `List Char`. -/

/-- Embeds `if len(url) > 0 && url[:1] == "/" { url = url[1:] }`:
strip a single leading separator if present. -/
def stripSlash : List Char → List Char
  | '/' :: rest => rest
  | url => url

/-- Embeds `strings.Split(url, "/")` for the single-character separator
`/`: splitting the empty string yields `[[]]` (one empty segment), and
consecutive or trailing separators yield empty segments, exactly as in
Go `strings.Split`. -/
def splitSeg : List Char → List (List Char)
  | [] => [[]]
  | c :: rest =>
    if c = '/' then [] :: splitSeg rest
    else
      match splitSeg rest with
      | s :: groups => (c :: s) :: groups
      | [] => [[c]]

/-- Embeds the per-segment test `len(stem) > 0 && stem[:1] == "."`. -/
def isHiddenSegment : List Char → Bool
  | [] => false
  | c :: _ => c == '.'

/-- The segments the guard iterates over: the request path with a single
leading separator stripped, split on `/`. -/
def segmentsOf (url : List Char) : List (List Char) :=
  splitSeg (stripSlash url)

/-- Embeds the loop `for _, stem := range path { if len(stem) > 0 &&
stem[:1] == "." { http.NotFound(w, r); return } }`: the guard responds
not-found exactly when some segment passes `isHiddenSegment`. -/
def guardRejects (url : List Char) : Bool :=
  (segmentsOf url).any isHiddenSegment

/-- Outcome of the wrapped handler on one request: either the guard
responded not-found itself, or it dispatched to the file-serving handler
(`http.StripPrefix("/", http.FileServer(http.FS(root)))`) passing some
request path. -/
inductive GuardResult where
  | notFound : GuardResult
  | delegate (path : List Char) : GuardResult
  deriving DecidableEq, Repr

/-- Embeds the handler built by `wrappedFileServer`: reject with
not-found if any segment is a dot segment, otherwise dispatch the
original request `r` (whose `URL.Path` is `urlPath`, unmodified) to the
file-serving handler. -/
def wrappedFileServer (urlPath : List Char) : GuardResult :=
  if guardRejects urlPath then .notFound else .delegate urlPath

/-! ## The filtering file system (`FilteringFS`)

The wrapper is generic over the wrapped store (`fs.FS` in Go).  We embed
a read-only store as three total functions: `Open` by path, `Stat` on a
handle (of the returned `FileInfo` only `IsDir()` is consulted, so we
keep just that flag), and `Close` on a handle, each fallible.  Handle
and error types are parameters. -/

structure FileStore (H E : Type) where
  openFn : String → Except E H
  statFn : H → Except E Bool
  closeFn : H → Except E Unit

/-- A store call made by the wrapper, in order of execution. -/
inductive StoreOp (H : Type) where
  | openOp (path : String) : StoreOp H
  | statOp (h : H) : StoreOp H
  | closeOp (h : H) : StoreOp H

/-- Result of one `FilteringFS.Open` call together with its
instrumentation: `opened` lists the handles the underlying store
successfully opened during the call, `closed` the handles it
successfully closed, and `ops` the store calls issued, in order.
(The spec's "store instrumented to count outstanding opens".) -/
structure OpenOutcome (H E : Type) where
  result : Except E H
  opened : List H
  closed : List H
  ops : List (StoreOp H)

/-- Embeds `filepath.Join(name, "index.html")` on slash-separated
relative names that are clean in the sense of the store's path-validity
rules (no empty, `.` or `..` segments), which is the domain `fs.FS`
accepts: joining is separator insertion, and joining to the empty
string yields the file name alone. -/
def pathJoin (dir file : String) : String :=
  if dir = "" then file else dir ++ "/" ++ file

/-- Embeds the `FilteringFS` struct: it wraps exactly one store, its
only field. -/
structure FilteringFS (H E : Type) where
  fs : FileStore H E

/-- Embeds `func (wrapper FilteringFS) Open(name string) (fs.File, error)`:

```
f, err := wrapper.fs.Open(name)
if err != nil { return nil, err }
s, err := f.Stat()
if err != nil { return nil, err }
if s.IsDir() {
    index := filepath.Join(name, "index.html")
    if _, err := wrapper.fs.Open(index); err != nil {
        closeErr := f.Close()
        if closeErr != nil { return nil, closeErr }
        return nil, err
    }
}
return f, nil
```

Each branch records the handles opened and closed and the store calls
made on that control path. -/
def FilteringFS.Open (wrapper : FilteringFS H E) (name : String) :
    OpenOutcome H E :=
  match wrapper.fs.openFn name with
  | .error err => ⟨.error err, [], [], [.openOp name]⟩
  | .ok f =>
    match wrapper.fs.statFn f with
    | .error err => ⟨.error err, [f], [], [.openOp name, .statOp f]⟩
    | .ok s =>
      if s then
        let index := pathJoin name "index.html"
        match wrapper.fs.openFn index with
        | .error err =>
          match wrapper.fs.closeFn f with
          | .error closeErr =>
            ⟨.error closeErr, [f], [],
              [.openOp name, .statOp f, .openOp index, .closeOp f]⟩
          | .ok _ =>
            ⟨.error err, [f], [f],
              [.openOp name, .statOp f, .openOp index, .closeOp f]⟩
        | .ok g =>
          ⟨.ok f, [f, g], [], [.openOp name, .statOp f, .openOp index]⟩
      else ⟨.ok f, [f], [], [.openOp name, .statOp f]⟩

/-- Repeated invocation of `Open` with the same path against the same
(unmutated, read-only) store: the list of the results of `k` calls. -/
def openRepeated (wrapper : FilteringFS H E) (name : String) (k : Nat) :
    List (Except E H) :=
  (List.range k).map fun _ => (wrapper.Open name).result

/-! ## A concrete store for witnesses

Handles are `Nat`, errors are `String`.  The tree holds a regular file
`file.txt`, a directory `noindex` without an index document, a directory
`badclose` without an index document whose handle fails to close, a
directory `withindex` containing `withindex/index.html`, and an entry
`statfail` whose `Stat` fails. -/

def demoStore : FileStore Nat String where
  openFn p :=
    if p = "file.txt" then .ok 10
    else if p = "noindex" then .ok 1
    else if p = "badclose" then .ok 2
    else if p = "withindex" then .ok 3
    else if p = "withindex/index.html" then .ok 4
    else if p = "statfail" then .ok 5
    else .error ("file does not exist: " ++ p)
  statFn h :=
    if h = 10 then .ok false
    else if h = 5 then .error "stat failure"
    else .ok true
  closeFn h :=
    if h = 2 then .error "close failure" else .ok ()

def demoFS : FilteringFS Nat String := ⟨demoStore⟩

/-! ## Helper lemmas about the guard -/

theorem isHiddenSegment_eq_true_iff (s : List Char) :
    isHiddenSegment s = true ↔ s ≠ [] ∧ s.head? = some '.' := by
  cases s with
  | nil => simp [isHiddenSegment]
  | cons c rest =>
    simp only [isHiddenSegment, beq_iff_eq, ne_eq, List.head?_cons,
      Option.some_inj, reduceCtorEq, not_false_iff, true_and]

theorem guardRejects_eq_true_iff (url : List Char) :
    guardRejects url = true ↔
      ∃ stem ∈ segmentsOf url, stem ≠ [] ∧ stem.head? = some '.' := by
  simp [guardRejects, List.any_eq_true, isHiddenSegment_eq_true_iff]

theorem wrappedFileServer_eq_notFound_iff (url : List Char) :
    wrappedFileServer url = .notFound ↔ guardRejects url = true := by
  unfold wrappedFileServer
  by_cases h : guardRejects url = true <;> simp [h]

/-! ## Claim theorems -/

/-- Claim C1: the guard responds not-found (never invoking the
file-serving handler) if and only if, after stripping a single leading
separator and splitting on `/`, some segment is non-empty and its first
character is `.`; all other paths are delegated to the file server. -/
theorem wrappedFileServer_notFound_iff_dot_segment (url : List Char) :
    (wrappedFileServer url = .notFound ↔
      ∃ stem ∈ segmentsOf url, stem ≠ [] ∧ stem.head? = some '.') ∧
    ((¬ ∃ stem ∈ segmentsOf url, stem ≠ [] ∧ stem.head? = some '.') →
      wrappedFileServer url = .delegate url) := by
  have hiff := (wrappedFileServer_eq_notFound_iff url).trans
    (guardRejects_eq_true_iff url)
  refine ⟨hiff, fun hno => ?_⟩
  have hfalse : guardRejects url = false := by
    rcases Bool.eq_false_or_eq_true (guardRejects url) with h | h
    · exact absurd ((guardRejects_eq_true_iff url).mp h) hno
    · exact h
  unfold wrappedFileServer
  simp [hfalse]

/-- Witness for claim C1 at the concrete request paths `/.env`
(rejected: its first segment starts with `.`) and `/index.html`
(delegated: no segment starts with `.`). -/
theorem wrappedFileServer_notFound_iff_witness :
    wrappedFileServer "/.env".data = .notFound ∧
      wrappedFileServer "/index.html".data = .delegate "/index.html".data :=
  ⟨(wrappedFileServer_notFound_iff_dot_segment "/.env".data).1.mpr
      (by decide),
    (wrappedFileServer_notFound_iff_dot_segment "/index.html".data).2
      (by decide)⟩

/-- Claim C8: on every accepted request (no non-empty segment starting
with `.`), the guard dispatches to the file-serving handler with the
original, unmodified request: the delegated path equals the inbound
request path. -/
theorem wrappedFileServer_delegates_unchanged (url : List Char)
    (h : guardRejects url = false) :
    wrappedFileServer url = .delegate url := by
  unfold wrappedFileServer
  simp [h]

/-- Witness for claim C8 at the concrete request path `/css/styles.css`. -/
theorem wrappedFileServer_delegates_unchanged_witness :
    guardRejects "/css/styles.css".data = false ∧
      wrappedFileServer "/css/styles.css".data =
        .delegate "/css/styles.css".data :=
  ⟨by decide, wrappedFileServer_delegates_unchanged "/css/styles.css".data
    (by decide)⟩

/-- Claim C10: any request path with a `..` or `.` segment (after
stripping a single leading separator and splitting on `/`) is rejected
with not-found, so it never reaches the underlying store through this
handler. -/
theorem wrappedFileServer_rejects_traversal_segments (url : List Char)
    (h : ['.', '.'] ∈ segmentsOf url ∨ ['.'] ∈ segmentsOf url) :
    wrappedFileServer url = .notFound := by
  rw [wrappedFileServer_eq_notFound_iff, guardRejects_eq_true_iff]
  rcases h with h | h
  · exact ⟨['.', '.'], h, by simp⟩
  · exact ⟨['.'], h, by simp⟩

/-- Witness for claim C10 at the concrete request path `/../etc/passwd`. -/
theorem wrappedFileServer_rejects_traversal_witness :
    (['.', '.'] ∈ segmentsOf "/../etc/passwd".data ∨
      ['.'] ∈ segmentsOf "/../etc/passwd".data) ∧
    wrappedFileServer "/../etc/passwd".data = .notFound :=
  ⟨Or.inl (by decide),
    wrappedFileServer_rejects_traversal_segments "/../etc/passwd".data
      (Or.inl (by decide))⟩

/-- Claim C2: if the store opens `name` as a directory, the index-probe
open fails with error `e`, and closing the directory handle succeeds,
then `FilteringFS.Open` fails with exactly `e`, the index candidate's
open error. -/
theorem open_dir_without_index_fails_with_probe_error
    {H E : Type} (wrapper : FilteringFS H E) (name : String)
    (f : H) (e : E)
    (hopen : wrapper.fs.openFn name = .ok f)
    (hstat : wrapper.fs.statFn f = .ok true)
    (hprobe : wrapper.fs.openFn (pathJoin name "index.html") = .error e)
    (hclose : wrapper.fs.closeFn f = .ok ()) :
    (wrapper.Open name).result = .error e := by
  simp [FilteringFS.Open, hopen, hstat, hprobe, hclose]

/-- Witness for claim C2: in `demoStore`, `noindex` is a directory with
no index document and a well-behaved `Close`. -/
theorem open_dir_without_index_witness :
    demoFS.fs.openFn "noindex" = .ok 1 ∧
    demoFS.fs.statFn 1 = .ok true ∧
    demoFS.fs.openFn (pathJoin "noindex" "index.html") =
      .error "file does not exist: noindex/index.html" ∧
    demoFS.fs.closeFn 1 = .ok () ∧
    (demoFS.Open "noindex").result =
      .error "file does not exist: noindex/index.html" :=
  ⟨rfl, rfl, rfl, rfl,
    open_dir_without_index_fails_with_probe_error demoFS "noindex" 1 _
      rfl rfl rfl rfl⟩

/-- Claim C4: if the index-probe open fails and closing the directory
handle also fails, `FilteringFS.Open` returns the close error in
preference to the probe's open error. -/
theorem open_dir_close_error_preferred
    {H E : Type} (wrapper : FilteringFS H E) (name : String)
    (f : H) (e closeErr : E)
    (hopen : wrapper.fs.openFn name = .ok f)
    (hstat : wrapper.fs.statFn f = .ok true)
    (hprobe : wrapper.fs.openFn (pathJoin name "index.html") = .error e)
    (hclose : wrapper.fs.closeFn f = .error closeErr) :
    (wrapper.Open name).result = .error closeErr := by
  simp [FilteringFS.Open, hopen, hstat, hprobe, hclose]

/-- Witness for claim C4: in `demoStore`, `badclose` is a directory
without an index document whose handle fails to close. -/
theorem open_dir_close_error_witness :
    demoFS.fs.openFn "badclose" = .ok 2 ∧
    demoFS.fs.statFn 2 = .ok true ∧
    demoFS.fs.openFn (pathJoin "badclose" "index.html") =
      .error "file does not exist: badclose/index.html" ∧
    demoFS.fs.closeFn 2 = .error "close failure" ∧
    (demoFS.Open "badclose").result = .error "close failure" :=
  ⟨rfl, rfl, rfl, rfl,
    open_dir_close_error_preferred demoFS "badclose" 2 _ _
      rfl rfl rfl rfl⟩

/-- Claim C5: if the store opens `name` as a directory and the
index-probe open succeeds, `FilteringFS.Open` succeeds and returns the
original directory handle `f`, not the index handle `g`. -/
theorem open_dir_with_index_returns_dir_handle
    {H E : Type} (wrapper : FilteringFS H E) (name : String)
    (f g : H)
    (hopen : wrapper.fs.openFn name = .ok f)
    (hstat : wrapper.fs.statFn f = .ok true)
    (hprobe : wrapper.fs.openFn (pathJoin name "index.html") = .ok g) :
    (wrapper.Open name).result = .ok f := by
  simp [FilteringFS.Open, hopen, hstat, hprobe]

/-- Witness for claim C5: in `demoStore`, `withindex` is a directory
containing `withindex/index.html`; the directory handle 3, not the
index handle 4, is returned. -/
theorem open_dir_with_index_witness :
    demoFS.fs.openFn "withindex" = .ok 3 ∧
    demoFS.fs.statFn 3 = .ok true ∧
    demoFS.fs.openFn (pathJoin "withindex" "index.html") = .ok 4 ∧
    (demoFS.Open "withindex").result = .ok 3 :=
  ⟨rfl, rfl, rfl,
    open_dir_with_index_returns_dir_handle demoFS "withindex" 3 4
      rfl rfl rfl⟩

/-- Claim C6: if the store opens `name` as a regular (non-directory)
file and its `Stat` succeeds, `FilteringFS.Open` returns that handle
unchanged and issues no further store call (no index probe): the only
store operations are the open and the stat. -/
theorem open_regular_file_unchanged
    {H E : Type} (wrapper : FilteringFS H E) (name : String) (f : H)
    (hopen : wrapper.fs.openFn name = .ok f)
    (hstat : wrapper.fs.statFn f = .ok false) :
    (wrapper.Open name).result = .ok f ∧
      (wrapper.Open name).ops = [.openOp name, .statOp f] := by
  constructor <;> simp [FilteringFS.Open, hopen, hstat]

/-- Witness for claim C6: in `demoStore`, `file.txt` is a regular
file. -/
theorem open_regular_file_witness :
    demoFS.fs.openFn "file.txt" = .ok 10 ∧
    demoFS.fs.statFn 10 = .ok false ∧
    (demoFS.Open "file.txt").result = .ok 10 ∧
    (demoFS.Open "file.txt").ops = [.openOp "file.txt", .statOp 10] :=
  ⟨rfl, rfl,
    (open_regular_file_unchanged demoFS "file.txt" 10 rfl rfl).1,
    (open_regular_file_unchanged demoFS "file.txt" 10 rfl rfl).2⟩

/-- Claim C7: if the underlying store's open of `name` fails with `e`,
`FilteringFS.Open` fails with exactly `e`, propagated unchanged, and
performs no further store operation in that call: the only store
operation is that open. -/
theorem open_store_error_propagated
    {H E : Type} (wrapper : FilteringFS H E) (name : String) (e : E)
    (hopen : wrapper.fs.openFn name = .error e) :
    (wrapper.Open name).result = .error e ∧
      (wrapper.Open name).ops = [.openOp name] := by
  constructor <;> simp [FilteringFS.Open, hopen]

/-- Witness for claim C7: `missing.txt` has no entry in `demoStore`. -/
theorem open_store_error_witness :
    demoFS.fs.openFn "missing.txt" =
      .error "file does not exist: missing.txt" ∧
    (demoFS.Open "missing.txt").result =
      .error "file does not exist: missing.txt" ∧
    (demoFS.Open "missing.txt").ops = [.openOp "missing.txt"] :=
  ⟨rfl,
    (open_store_error_propagated demoFS "missing.txt" _ rfl).1,
    (open_store_error_propagated demoFS "missing.txt" _ rfl).2⟩

/-- Claim C9: against a fixed (unmutated, read-only) store, any number
of repeated calls to `Open` with the same path return the very same
result: the list of `k` call results is `k` copies of the one result. -/
theorem open_idempotent {H E : Type} (wrapper : FilteringFS H E)
    (name : String) (k : Nat) :
    openRepeated wrapper name k =
      List.replicate k (wrapper.Open name).result := by
  simp [openRepeated, List.map_const]

/-- Claim C3 fails on the code (the spec is the intent): the index-probe
handle is never closed when the probe succeeds, and the directory handle
is not closed when `Stat` fails.  On `withindex` (directory with an
index document) the call succeeds returning handle 3 but has opened
handles 3 and 4 and closed none, so the outstanding count rises by two,
not one; on `statfail` the call errors yet leaves handle 5 open. -/
theorem open_leaks_probe_and_stat_handles :
    ((demoFS.Open "withindex").result = .ok 3 ∧
      (demoFS.Open "withindex").opened = [3, 4] ∧
      (demoFS.Open "withindex").closed = []) ∧
    ((demoFS.Open "statfail").result = .error "stat failure" ∧
      (demoFS.Open "statfail").opened = [5] ∧
      (demoFS.Open "statfail").closed = []) :=
  ⟨⟨rfl, rfl, rfl⟩, ⟨rfl, rfl, rfl⟩⟩

end SecureFS
